import Mathlib

/-!
Verification of the SyzyAsan instrumentation transform core.

A shallow embedding of `syzygy/instrument/transforms/asan_transform.cc`
(the per-basic-block Asan instrumentation engine), together with proofs
about its operand classifier, probe-name mangling, probe enumeration,
hook injection, and pass-driver control flow.

Machine integers: displacements and offsets are modelled as `Int`
(the source works with 32-bit displacements whose arithmetic never
overflows for well-formed x86 operands: operand sizes are nonzero
multiples of 8 bits, so `access_size_bytes - 1` never underflows).
Opcodes are opaque decoder enumeration ids, modelled as distinct `Nat`
constants; their exact numeric values are immaterial to the code.
-/

namespace SyzyAsan

/-! ## Decoder-level data model (distorm `_DInst` / `_Operand`) -/

/-- 32-bit general-purpose registers (`assm::Register32` ids). -/
inductive Reg32
  | eax | ecx | edx | ebx | esp | ebp | esi | edi
deriving DecidableEq

/-- Segment registers, as extracted by `SEGMENT_GET(repr.segment)`.
`none` models `R_NONE` (no segment override). -/
inductive SegReg
  | es | cs | ss | ds | fs | gs
deriving DecidableEq

/-- distorm operand types (only the ones the transform inspects). -/
inductive OperandType
  | O_NONE | O_REG | O_IMM | O_SMEM | O_MEM | O_DISP | O_PC
deriving DecidableEq

/-- One decoded operand (`_Operand`): its type, bit-width, and the
register held in its `index` field (for `O_SMEM` this is the base
register of the access, for `O_MEM` it is the index register). -/
structure DOperand where
  type : OperandType
  size : Nat
  index : Reg32
deriving DecidableEq

/-- The decoded instruction representation (`_DInst`), restricted to
the fields `asan_transform.cc` reads.  `prefixRep`/`prefixRepnz` model
`FLAG_GET_PREFIX(repr.flags) & FLAG_REP` / `& FLAG_REPNZ`; `dstWr`
models `repr.flags & FLAG_DST_WR`; `isNop` models `core::IsNop(repr)`;
`base = none` models `repr.base == R_NONE`. -/
structure DInst where
  opcode : Nat
  ops0 : DOperand
  ops1 : DOperand
  disp : Int
  dispSize : Nat
  scale : Nat
  base : Option Reg32
  segment : Option SegReg
  prefixRep : Bool
  prefixRepnz : Bool
  dstWr : Bool
  isNop : Bool
deriving DecidableEq

/-- `BasicBlockReference::ReferredType` values that an operand
reference can carry (`REFERRED_TYPE_BLOCK` / `REFERRED_TYPE_BASIC_BLOCK`). -/
inductive ReferredType
  | block | basicBlock
deriving DecidableEq

/-- A `BasicBlockReference` as returned by
`Instruction::FindOperandReference`: its referred type, the id of the
referred (basic) block, and its offset into the target. -/
structure BBReference where
  referredType : ReferredType
  target : Nat
  offset : Int
deriving DecidableEq

/-- A `block_graph::Instruction`: the decoded representation plus the
references attached to its first two operands
(`FindOperandReference(0)` / `FindOperandReference(1)`). -/
structure Instruction where
  repr : DInst
  operandRef0 : Option BBReference
  operandRef1 : Option BBReference
deriving DecidableEq

/-- `Instruction::FindOperandReference(operand)` for operand 0 or 1. -/
def Instruction.operandRef (instr : Instruction) (operand : Nat) :
    Option BBReference :=
  if operand = 0 then instr.operandRef0 else instr.operandRef1

/-- `instr.opcode()`. -/
def Instruction.opcode (instr : Instruction) : Nat := instr.repr.opcode

/-! ## Opcode constants

Opaque ids from the decoder's instruction enumeration
(`third_party/distorm mnemonics`).  Only distinctness (and being
nonzero) matters to the transform; the values below are arbitrary
distinct choices. -/

def I_CMPS : Nat := 59
def I_LODS : Nat := 564
def I_MOVS : Nat := 632
def I_STOS : Nat := 909
def I_LEA : Nat := 223
def I_CLFLUSH : Nat := 4329
def I_PREFETCH : Nat := 4336
def I_PREFETCHNTA : Nat := 4344
def I_PREFETCHT0 : Nat := 4352
def I_PREFETCHT1 : Nat := 4360
def I_PREFETCHT2 : Nat := 4368
def I_PREFETCHW : Nat := 4376

/-! ## Assembler-level data model (`BasicBlockAssembler` values) -/

/-- `BasicBlockAssembler::Displacement`, by the three constructors the
transform uses: an immediate value, a reference to a block at an
offset, or a bare reference to a basic block (the
`Displacement(BasicBlock*)` constructor carries no offset component:
it refers to the start of the basic block). -/
inductive Displacement
  | value (v : Int)
  | blockRef (block : Nat) (offset : Int)
  | basicBlockRef (bb : Nat)
deriving DecidableEq

/-- `displ.size() == assm::kSizeNone`: a default/zero-valued immediate
displacement has size `kSizeNone` (this is what the
`[base + index * scale]`-without-displacement branch of
`DecodeMemoryAccess` tests). -/
def Displacement.sizeIsNone : Displacement → Bool
  | .value 0 => true
  | _ => false

/-- `displacement().reference().referred_type()`: the referred type of
the reference carried by a displacement, if any. -/
def Displacement.referredType : Displacement → Option ReferredType
  | .value _ => none
  | .blockRef _ _ => some .block
  | .basicBlockRef _ => some .basicBlock

/-- The offset at which the materialized displacement points into its
referred target (a bare basic-block reference points at offset 0), or
the immediate value for a non-reference displacement. -/
def Displacement.refOffset : Displacement → Int
  | .value v => v
  | .blockRef _ offset => offset
  | .basicBlockRef _ => 0

/-- The id of the (basic) block referred to by the displacement, if any. -/
def Displacement.refTarget : Displacement → Option Nat
  | .value _ => none
  | .blockRef block _ => some block
  | .basicBlockRef bb => some bb

/-- `assm::ScaleFactor`. -/
inductive ScaleFactor
  | times1 | times2 | times4 | times8
deriving DecidableEq

/-- A `BasicBlockAssembler::Operand`: optional base register, optional
index register with scale, and a displacement (a value displacement of
0 models the "no displacement" / `kSizeNone` state of the two- and
three-argument `Operand` constructors). -/
structure AsmOperand where
  base : Option Reg32
  index : Option Reg32
  scale : ScaleFactor
  displacement : Displacement
deriving DecidableEq

/-! ## MemoryAccessInfo -/

/-- `AsanBasicBlockTransform::MemoryAccessMode`. -/
inductive MemoryAccessMode
  | noAccess | read | write | instrAccess | repz | repnz
deriving DecidableEq

/-- `AsanBasicBlockTransform::MemoryAccessInfo`. -/
structure MemoryAccessInfo where
  mode : MemoryAccessMode
  size : Nat
  opcode : Nat
  saveFlags : Bool
deriving DecidableEq

/-- `BlockGraph::ImageFormat`. -/
inductive ImageFormat
  | pe | coff
deriving DecidableEq

/-- A `BlockGraph::Reference` as consumed by `InjectAsanHook`: the
referenced block and the offset into it. -/
structure Reference where
  referenced : Nat
  offset : Int
deriving DecidableEq

/-! ## Operand classifier -/

/-- `ShouldInstrumentOpcode`: LEA does not access memory, and prefetch
and clflush instructions are ignored. -/
def shouldInstrumentOpcode (opcode : Nat) : Bool :=
  if opcode = I_LEA then false
  else if opcode = I_CLFLUSH then false
  else if opcode = I_PREFETCH then false
  else if opcode = I_PREFETCHNTA then false
  else if opcode = I_PREFETCHT0 then false
  else if opcode = I_PREFETCHT1 then false
  else if opcode = I_PREFETCHT2 then false
  else if opcode = I_PREFETCHW then false
  else true

/-- `IsInstrumentable`: true iff the operand implies a memory access. -/
def isInstrumentable (op : DOperand) : Bool :=
  match op.type with
  | .O_SMEM => true
  | .O_MEM => true
  | _ => false

/-- `IsSpecialInstruction`: string instructions whose memory checks are
handled by specialized probe functions. -/
def isSpecialInstruction (opcode : Nat) : Bool :=
  if opcode = I_CMPS then true
  else if opcode = I_LODS then true
  else if opcode = I_MOVS then true
  else if opcode = I_STOS then true
  else false

/-- `repr.ops[operand]` for operand number 0 or 1. -/
def DInst.op (repr : DInst) (operand : Nat) : DOperand :=
  if operand = 0 then repr.ops0 else repr.ops1

/-- `ComputeDisplacementForOperand`: the displacement for the probe's
`lea`, pointing at the last byte touched by the access.  Mirrors the
source: if `dispSize == 0` the displacement is `access_size_bytes - 1`;
if the operand carries a reference to a block, the adjustment is added
to the reference's offset; a basic-block reference is passed through
bare (the `Displacement(BasicBlock*)` constructor takes no offset);
otherwise the value is `disp + access_size_bytes - 1`. -/
def computeDisplacementForOperand (instr : Instruction) (operand : Nat) :
    Displacement :=
  let accessSizeBytes : Int := ((instr.repr.op operand).size / 8 : Nat)
  if instr.repr.dispSize = 0 then
    .value (accessSizeBytes - 1)
  else
    match instr.operandRef operand with
    | some reference =>
      if reference.referredType = .block then
        .blockRef reference.target (reference.offset + accessSizeBytes - 1)
      else
        .basicBlockRef reference.target
    | none => .value (instr.repr.disp + accessSizeBytes - 1)

/-- The operand-selection step of `DecodeMemoryAccess`: which of the
first two operands is instrumented, if any.  When both are
memory-typed (e.g. `MOVS [EDI], [ESI]`) operand 0 is chosen. -/
def chooseMemOp (repr : DInst) : Option Nat :=
  if isInstrumentable repr.ops0 ∧ isInstrumentable repr.ops1 then some 0
  else if isInstrumentable repr.ops0 then some 0
  else if isInstrumentable repr.ops1 then some 1
  else none

/-- The mode-determination step of `DecodeMemoryAccess` (read / write /
instr / repz / repnz), evaluated in source order. -/
def decodeMode (repr : DInst) (memOpId : Nat) : MemoryAccessMode :=
  if repr.prefixRepnz then .repnz
  else if repr.prefixRep then .repz
  else if isSpecialInstruction repr.opcode then .instrAccess
  else if repr.dstWr ∧ memOpId = 0 then .write
  else .read

/-- True for the three modes whose probes take addresses from
architectural registers (the three-way test at the opcode-population
and stub-selection sites). -/
def MemoryAccessMode.isSpecial (mode : MemoryAccessMode) : Bool :=
  if mode = .repnz then true
  else if mode = .repz then true
  else if mode = .instrAccess then true
  else false

/-- The operand-form step of `DecodeMemoryAccess`: build the assembler
operand for the access.  `O_SMEM` is base + displacement; `O_MEM` is
optional base + index*scale + displacement, where a `kSizeNone`
displacement selects the `[base + index * scale]` constructor.  Any
other operand type is unreachable (`NOTREACHED`, returns failure). -/
def decodeOperandForm (instr : Instruction) (memOpId : Nat) :
    Option AsmOperand :=
  let repr := instr.repr
  let opnd := repr.op memOpId
  if opnd.type = .O_SMEM then
    let baseReg := opnd.index
    let displ := computeDisplacementForOperand instr memOpId
    some ⟨some baseReg, none, .times1, displ⟩
  else if repr.ops0.type = .O_MEM ∨ repr.ops1.type = .O_MEM then
    let indexReg := opnd.index
    let scale : ScaleFactor :=
      match repr.scale with
      | 2 => .times2
      | 4 => .times4
      | 8 => .times8
      | _ => .times1
    let displ := computeDisplacementForOperand instr memOpId
    match repr.base with
    | some baseReg =>
      if displ.sizeIsNone then
        some ⟨some baseReg, some indexReg, scale, .value 0⟩
      else
        some ⟨some baseReg, some indexReg, scale, displ⟩
    | none => some ⟨none, some indexReg, scale, displ⟩
  else
    none

/-- `DecodeMemoryAccess`: decode the first `O_SMEM`/`O_MEM` operand of
the instruction, if any, into an assembler operand and a
`MemoryAccessInfo`.  The incoming info (as initialized by
`InstrumentBasicBlock`) has `save_flags = true` and `opcode = 0`;
`DecodeMemoryAccess` overwrites `mode` and `size`, sets `opcode` only
for the special modes, and never touches `save_flags`. -/
def decodeMemoryAccess (instr : Instruction) :
    Option (AsmOperand × MemoryAccessInfo) :=
  let repr := instr.repr
  if repr.isNop then none
  else
    match chooseMemOp repr with
    | none => none
    | some memOpId =>
      let size := (repr.op memOpId).size / 8
      let mode := decodeMode repr memOpId
      let opcode := if mode.isSpecial then repr.opcode else 0
      let info : MemoryAccessInfo := ⟨mode, size, opcode, true⟩
      match decodeOperandForm instr memOpId with
      | some access => some (access, info)
      | none => none

/-! ## Hook injection (`InjectAsanHook`) -/

/-- The assembler instructions the transform emits around an access
(`BasicBlockAssembler::push/lea/call`).  A call is either indirect
through a displacement operand (`callOp`, PE images: through an IAT
slot) or direct to an immediate symbol reference (`callImm`, COFF). -/
inductive AsmInstr
  | push (reg : Reg32)
  | lea (dst : Reg32) (src : AsmOperand)
  | callOp (block : Nat) (offset : Int)
  | callImm (block : Nat) (offset : Int)
deriving DecidableEq

/-- The call instruction emitted for the hook: indirect through the
hook reference for PE images, direct for COFF images. -/
def hookCall (hook : Reference) (imageFormat : ImageFormat) : AsmInstr :=
  if imageFormat = .pe then .callOp hook.referenced hook.offset
  else .callImm hook.referenced hook.offset

/-- `InjectAsanHook`: the instruction sequence inserted before the
instrumented access.  For the standard load/store probe (read/write
modes) the address is passed in EDX: `push EDX; lea EDX, op; call`.
The special-instruction probes take addresses directly in registers,
so only the call is emitted. -/
def injectAsanHook (info : MemoryAccessInfo) (op : AsmOperand)
    (hook : Reference) (imageFormat : ImageFormat) : List AsmInstr :=
  (if info.mode = .read ∨ info.mode = .write then
    [.push .edx, .lea .edx op]
  else []) ++ [hookCall hook imageFormat]

/-! ## Probe name mangling (`GetAsanCheckAccessFunctionName`) -/

/-- ASCII lower-casing of one character (`base::ToLowerASCII`). -/
def asciiToLower (c : Char) : Char :=
  if 'A' ≤ c ∧ c ≤ 'Z' then Char.ofNat (c.toNat + 32) else c

/-- ASCII lower-casing of a string (`base::ToLowerASCII`). -/
def toLowerAscii (s : String) : String := ⟨s.data.map asciiToLower⟩

/-- The decimal digit character for `n < 10`. -/
def decDigit (n : Nat) : Char := Char.ofNat (48 + n)

/-- Fuelled decimal rendering: `fuel` bounds the number of digits
(structural recursion so that the definition evaluates). -/
def natDecimalListAux : Nat → Nat → List Char
  | 0, _ => []
  | fuel + 1, n =>
    if n < 10 then [decDigit n]
    else natDecimalListAux fuel (n / 10) ++ [decDigit (n % 10)]

/-- The decimal digit string of a natural number (how `%d` renders
`info.size` in `base::StringPrintf`). -/
def natDecimalList (n : Nat) : List Char := natDecimalListAux (n + 1) n

/-- Decimal rendering of a natural number as a string. -/
def natDecimal (n : Nat) : String := ⟨natDecimalList n⟩

/-- Modelled from the spec: the decoder's mnemonic text table
(`GET_MNEMONIC_NAME`, from the third-party decoder, not part of this
repository).  The spec names it only as "the mnemonic text"; the four
string-instruction opcodes the transform enumerates are tabulated,
other opcodes are given an unspecified (empty) text. -/
def mnemonicName (opcode : Nat) : String :=
  if opcode = I_CMPS then "CMPS"
  else if opcode = I_LODS then "LODS"
  else if opcode = I_MOVS then "MOVS"
  else if opcode = I_STOS then "STOS"
  else ""

/-- `GetAsanCheckAccessFunctionName`: the mangled probe name for a
memory access kind, built by `StringPrintf` and lower-cased by
`base::ToLowerASCII`.  COFF images use the decorated name with a
leading underscore. -/
def getAsanCheckAccessFunctionName (info : MemoryAccessInfo)
    (imageFormat : ImageFormat) : String :=
  let repStr : String :=
    if info.mode = .repz then "_repz"
    else if info.mode = .repnz then "_repnz"
    else ""
  let accessModeStr : String :=
    if info.mode = .read then "read"
    else if info.mode = .write then "write"
    else mnemonicName info.opcode
  toLowerAscii
    ((if imageFormat = .pe then "" else "_") ++ "asan_check" ++ repStr ++
      "_" ++ natDecimal info.size ++ "_byte_" ++ accessModeStr ++
      "_access" ++ (if info.saveFlags then "" else "_no_flags"))

/-- The probe name as the spec's mangling rule states it:
`[prefix] "asan_check" [rep] "_" <size> "_byte_" <op> "_access" [nf]`
as a lower-case string, where `prefix` is `"_"` for COFF else empty,
`rep` is `"_repz"`, `"_repnz"` or empty, `op` is `"read"`, `"write"`
or the (lower-cased) mnemonic text, and `nf` is `"_no_flags"` when
`save_flags` is false, else empty. -/
def specProbeName (info : MemoryAccessInfo)
    (imageFormat : ImageFormat) : String :=
  (if imageFormat = .coff then "_" else "") ++ "asan_check" ++
    (match info.mode with
    | .repz => "_repz"
    | .repnz => "_repnz"
    | _ => "") ++
    "_" ++ natDecimal info.size ++ "_byte_" ++
    (match info.mode with
    | .read => "read"
    | .write => "write"
    | _ => toLowerAscii (mnemonicName info.opcode)) ++
    "_access" ++ (if info.saveFlags then "" else "_no_flags")

/-! ## Probe variant enumeration (`ImportAsanCheckAccessHooks`) -/

/-- The read/write probe variants for one access size: one entry with
`save_flags = true`, plus a `save_flags = false` copy when liveness
analysis is enabled — once for the read mode, once for the write mode
(body of the `access_size` loops of `ImportAsanCheckAccessHooks`). -/
def readWriteHookPair (useLivenessAnalysis : Bool) (accessSize : Nat) :
    List MemoryAccessInfo :=
  [⟨.read, accessSize, 0, true⟩] ++
    (if useLivenessAnalysis then [⟨.read, accessSize, 0, false⟩] else []) ++
    [⟨.write, accessSize, 0, true⟩] ++
    (if useLivenessAnalysis then [⟨.write, accessSize, 0, false⟩] else [])

/-- The string/prefix probe variants for one access size and one string
opcode: a repz variant and an instr variant, both saving flags (body of
the string-instruction loops of `ImportAsanCheckAccessHooks`). -/
def stringHookPair (accessSize : Nat) (opcode : Nat) :
    List MemoryAccessInfo :=
  [⟨.repz, accessSize, opcode, true⟩, ⟨.instrAccess, accessSize, opcode, true⟩]

/-- The full `access_hook_param_vec` built by
`ImportAsanCheckAccessHooks`, in source order: read/write hooks for
sizes 1,2,4,8,16,32 (the doubling loop), the 10-byte read/write hooks,
then repz/instr hooks for sizes 1,2,4 and each string opcode. -/
def accessHookParamVec (useLivenessAnalysis : Bool) :
    List MemoryAccessInfo :=
  ([1, 2, 4, 8, 16, 32].flatMap (readWriteHookPair useLivenessAnalysis)) ++
    readWriteHookPair useLivenessAnalysis 10 ++
    ([1, 2, 4].flatMap fun accessSize =>
      [I_CMPS, I_LODS, I_MOVS, I_STOS].flatMap (stringHookPair accessSize))

/-- The probe variant set as the spec enumerates it: for each size in
{1,2,4,8,16,32} and also size 10, a read and a write entry with
`save_flags = true`, plus, when liveness analysis is enabled, a second
of each with `save_flags = false`; and for each size in {1,2,4} and
each string opcode, one repz and one instr variant with
`save_flags = true`. -/
def specHookList (useLivenessAnalysis : Bool) : List MemoryAccessInfo :=
  ([1, 2, 4, 8, 16, 32, 10].flatMap fun accessSize =>
      [MemoryAccessInfo.mk .read accessSize 0 true,
        MemoryAccessInfo.mk .write accessSize 0 true] ++
        (if useLivenessAnalysis then
          [MemoryAccessInfo.mk .read accessSize 0 false,
            MemoryAccessInfo.mk .write accessSize 0 false]
        else [])) ++
    ([1, 2, 4].flatMap fun accessSize =>
      [I_CMPS, I_LODS, I_MOVS, I_STOS].flatMap fun opcode =>
        [MemoryAccessInfo.mk .repz accessSize opcode true,
          MemoryAccessInfo.mk .instrAccess accessSize opcode true])

/-! ## Basic-block instrumenter (`AsanBasicBlockTransform`) -/

/-- `AsanBasicBlockTransform::StackAccessMode`. -/
inductive StackAccessMode
  | safeStack | unsafeStack
deriving DecidableEq

/-- The per-transform flags of `AsanBasicBlockTransform`. -/
structure Config where
  debugFriendly : Bool
  useLivenessAnalysis : Bool
  removeRedundantChecks : Bool
  dryRun : Bool
  instrumentationRate : ℚ
deriving DecidableEq

/-- `set_instrumentation_rate` (both on `AsanBasicBlockTransform` and
`AsanTransform`): the rate is capped between 0 and 1. -/
def setInstrumentationRate (rate : ℚ) : ℚ := max 0 (min 1 rate)

/-- One instruction of a basic block together with the analysis facts
the instrumenter consults for it: the liveness state consumed at this
instruction (`state.AreArithmeticFlagsLive()`), the redundancy answer
(`memory_state.HasNonRedundantAccess(instr)`), the caller filter
(`IsFiltered`), and the random draw (`base::RandDouble()`, a value in
[0, 1)).  The two analyses and the PRNG are external collaborators;
their per-instruction answers are inputs of the embedding. -/
structure InstrContext where
  instr : Instruction
  flagsLive : Bool
  nonRedundant : Bool
  filtered : Bool
  randomDraw : ℚ

/-- The instrumenter's verdict for one instruction. -/
inductive Decision
  | skip
  | instrument (info : MemoryAccessInfo) (op : AsmOperand)
deriving DecidableEq

/-- The per-instruction body of the main loop of
`InstrumentBasicBlock`, in source order: the redundancy skip, the
decode, the basic-block- and block-reference skips, the exempt-opcode
skip, the safe-stack skip, the segment skip, the filter skip, the
sampling skip, and finally the liveness-driven `save_flags` downgrade
for read/write accesses. -/
def instrumentDecision (cfg : Config) (stackMode : StackAccessMode)
    (ctx : InstrContext) : Decision :=
  if cfg.removeRedundantChecks ∧ ¬ctx.nonRedundant then .skip
  else
    match decodeMemoryAccess ctx.instr with
    | none => .skip
    | some (operand, info) =>
      if info.mode = .noAccess then .skip
      else if operand.displacement.referredType = some .basicBlock then .skip
      else if operand.displacement.referredType = some .block then .skip
      else if ¬shouldInstrumentOpcode ctx.instr.repr.opcode then .skip
      else if stackMode = .safeStack ∧
          (operand.base = some .esp ∨ operand.base = some .ebp) then .skip
      else if ctx.instr.repr.segment = some .fs ∨
          ctx.instr.repr.segment = some .gs then .skip
      else if ctx.filtered then .skip
      else if cfg.instrumentationRate < 1 ∧
          ctx.randomDraw ≥ cfg.instrumentationRate then .skip
      else
        let info :=
          if cfg.useLivenessAnalysis ∧
              (info.mode = .read ∨ info.mode = .write) then
            { info with saveFlags := ctx.flagsLive }
          else info
        .instrument info operand

/-- The outcome of `InstrumentBasicBlock`: the returned success flag,
the probe sequences emitted into the instruction stream (in order),
and the value of the `instrumentation_happened_` flag. -/
structure BBResult where
  success : Bool
  emitted : List AsmInstr
  happened : Bool
deriving DecidableEq

/-- The instruction walk of `InstrumentBasicBlock`: for each
instrumented access, mark that instrumentation happened; in dry-run
mode stop there, otherwise look up the probe reference (a missing hook
is a hard error aborting the block) and emit the `InjectAsanHook`
sequence. -/
def instrumentWalk (cfg : Config) (stackMode : StackAccessMode)
    (imageFormat : ImageFormat)
    (hooks : MemoryAccessInfo → Option Reference) :
    List InstrContext → BBResult
  | [] => ⟨true, [], false⟩
  | ctx :: rest =>
    match instrumentDecision cfg stackMode ctx with
    | .skip => instrumentWalk cfg stackMode imageFormat hooks rest
    | .instrument info op =>
      if cfg.dryRun then
        let r := instrumentWalk cfg stackMode imageFormat hooks rest
        ⟨r.success, r.emitted, true⟩
      else
        match hooks info with
        | none => ⟨false, [], true⟩
        | some hook =>
          let r := instrumentWalk cfg stackMode imageFormat hooks rest
          ⟨r.success, injectAsanHook info op hook imageFormat ++ r.emitted,
            true⟩

/-- `AsanBasicBlockTransform::InstrumentBasicBlock`: an
instrumentation rate of exactly 0 short-circuits the whole block with
success before the liveness and redundancy pre-computations and before
the instruction walk; otherwise the instructions are walked in order. -/
def instrumentBasicBlock (cfg : Config) (stackMode : StackAccessMode)
    (imageFormat : ImageFormat)
    (hooks : MemoryAccessInfo → Option Reference)
    (instrs : List InstrContext) : BBResult :=
  if cfg.instrumentationRate = 0 then ⟨true, [], false⟩
  else instrumentWalk cfg stackMode imageFormat hooks instrs

/-- `AsanBasicBlockTransform::TransformBasicBlockSubGraph`: run the
analyses, compute the stack mode from
`HasUnexpectedStackFrameManipulation` (an external whole-subgraph
inspection, passed in as `stackMode`), then instrument every basic
code block, failing as soon as one block fails. -/
def transformBasicBlockSubGraph (cfg : Config)
    (stackMode : StackAccessMode) (imageFormat : ImageFormat)
    (hooks : MemoryAccessInfo → Option Reference)
    (basicBlocks : List (List InstrContext)) : Bool :=
  basicBlocks.all fun bb =>
    (instrumentBasicBlock cfg stackMode imageFormat hooks bb).success

/-- Whether the cumulative `instrumentation_happened_` flag is set
after `TransformBasicBlockSubGraph` visits the whole subgraph. -/
def subGraphInstrumentationHappened (cfg : Config)
    (stackMode : StackAccessMode) (imageFormat : ImageFormat)
    (hooks : MemoryAccessInfo → Option Reference)
    (basicBlocks : List (List InstrContext)) : Bool :=
  basicBlocks.any fun bb =>
    (instrumentBasicBlock cfg stackMode imageFormat hooks bb).happened

/-! ## Hot-patching wrapper and the driver's per-block step -/

/-- `HotPatchingAsanBasicBlockTransform::TransformBasicBlockSubGraph`:
runs the wrapped Asan transform in dry-run mode *discarding its return
value*, then, if instrumentation would have happened, runs the
external `PEHotPatchingBasicBlockTransform` — *also discarding its
return value* (`hpPrepResult`) — and records the block as prepared.
It always returns success.  The result is
(returned success flag, `prepared_for_hot_patching_`). -/
def hotPatchingTransformBasicBlockSubGraph (cfg : Config)
    (stackMode : StackAccessMode) (imageFormat : ImageFormat)
    (hooks : MemoryAccessInfo → Option Reference)
    (basicBlocks : List (List InstrContext))
    (hpPrepResult : Bool) : Bool × Bool :=
  let dryCfg := { cfg with dryRun := true }
  let happened :=
    subGraphInstrumentationHappened dryCfg stackMode imageFormat hooks
      basicBlocks
  (true, happened)

/-- `ApplyBasicBlockSubGraphTransform` (external block-graph
primitive): decompose the block, run the given transform on the
subgraph, rebuild.  Decomposition and rebuild are external
collaborators whose outcomes are inputs (`decomposeOk`, `rebuildOk`);
the whole application fails if any step fails. -/
def applyBasicBlockSubGraphTransform (decomposeOk : Bool)
    (transformResult : Bool) (rebuildOk : Bool) : Bool :=
  decomposeOk && transformResult && rebuildOk

/-- `AsanTransform::OnBlock`: skipped blocks succeed trivially; in
normal mode the Asan basic-block transform is applied and its failure
fails the block (and hence the pass); in hot-patching mode the
hot-patching wrapper is applied instead (in dry-run). -/
def onBlock (hotPatching : Bool) (skip : Bool) (cfg : Config)
    (stackMode : StackAccessMode) (imageFormat : ImageFormat)
    (hooks : MemoryAccessInfo → Option Reference)
    (basicBlocks : List (List InstrContext))
    (decomposeOk rebuildOk hpPrepResult : Bool) : Bool :=
  if skip then true
  else if ¬hotPatching then
    applyBasicBlockSubGraphTransform decomposeOk
      (transformBasicBlockSubGraph cfg stackMode imageFormat hooks
        basicBlocks)
      rebuildOk
  else
    applyBasicBlockSubGraphTransform decomposeOk
      ((hotPatchingTransformBasicBlockSubGraph cfg stackMode imageFormat
          hooks basicBlocks hpPrepResult).1)
      rebuildOk

/-! ## Pass pre-iteration (`AsanTransform::PreBlockGraphIteration`) -/

/-- The error kinds of the pass (spec section 7 taxonomy; the source
reports them as logged failures). -/
inductive AsanPassError
  | alreadyInstrumented
  | transformFailure
deriving DecidableEq

/-- `common::kThunkSectionName`, the section holding all emitted
thunks.  Modelled from the spec: the constant lives in
`common/defs.h`, outside this repository slice; the spec fixes its
value as `".thunks"`. -/
def kThunkSectionName : String := ".thunks"

/-- The block graph as `PreBlockGraphIteration` inspects it: the names
of its sections (`FindSection(name)` is membership). -/
structure BlockGraphModel where
  sections : List String
deriving DecidableEq

/-- `AsanTransform::PreBlockGraphIteration`: refuse with
`AlreadyInstrumented` when the image already carries a `.thunks`
section, before anything else runs.  All later steps of the
pre-iteration (heap-init discovery, static-intercept discovery,
probe import, entry-thunk rewrite) — the only steps that mutate —
are abstracted by the continuation `rest`, which is not consulted when
the check fails. -/
def preBlockGraphIteration (bg : BlockGraphModel)
    (rest : Except AsanPassError Unit) : Except AsanPassError Unit :=
  if kThunkSectionName ∈ bg.sections then .error .alreadyInstrumented
  else rest

/-! ## Helper lemmas -/

/-- A dry-run walk always reports success (dry-run mode stops before
the hook lookup, the only failing step of the walk). -/
theorem instrumentWalk_dryRun_success (cfg : Config)
    (stackMode : StackAccessMode) (imageFormat : ImageFormat)
    (hooks : MemoryAccessInfo → Option Reference)
    (instrs : List InstrContext) (hdry : cfg.dryRun = true) :
    (instrumentWalk cfg stackMode imageFormat hooks instrs).success = true := by
  induction instrs with
  | nil => rfl
  | cons ctx rest ih =>
    rw [instrumentWalk]
    cases instrumentDecision cfg stackMode ctx with
    | skip => exact ih
    | instrument info op => simp [hdry, ih]

theorem toLowerAscii_append (a b : String) :
    toLowerAscii (a ++ b) = toLowerAscii a ++ toLowerAscii b := by
  cases a with | _ la =>
  cases b with | _ lb =>
  show String.mk ((la ++ lb).map asciiToLower) = _
  simp [toLowerAscii]
  rfl

theorem asciiToLower_decDigit (d : Nat) (h : d < 10) :
    asciiToLower (decDigit d) = decDigit d := by
  interval_cases d <;> decide

theorem natDecimalListAux_map_lower (fuel n : Nat) :
    (natDecimalListAux fuel n).map asciiToLower = natDecimalListAux fuel n := by
  induction fuel generalizing n with
  | zero => rfl
  | succ fuel ih =>
    rw [natDecimalListAux]
    by_cases h : n < 10
    · simp [h, asciiToLower_decDigit n h]
    · simp only [h, if_false, List.map_append, List.map_cons, List.map_nil,
        ih (n / 10), asciiToLower_decDigit (n % 10) (Nat.mod_lt _ (by omega))]

theorem natDecimalList_map_lower (n : Nat) :
    (natDecimalList n).map asciiToLower = natDecimalList n :=
  natDecimalListAux_map_lower (n + 1) n

/-- Lower-casing a decimal digit string is the identity. -/
theorem toLowerAscii_natDecimal (n : Nat) :
    toLowerAscii (natDecimal n) = natDecimal n :=
  congrArg String.mk (natDecimalList_map_lower n)

theorem toLowerAscii_empty : toLowerAscii "" = "" := by decide

theorem toLowerAscii_underscore : toLowerAscii "_" = "_" := by decide

theorem toLowerAscii_asan_check :
    toLowerAscii "asan_check" = "asan_check" := by decide

theorem toLowerAscii_repz : toLowerAscii "_repz" = "_repz" := by decide

theorem toLowerAscii_repnz : toLowerAscii "_repnz" = "_repnz" := by decide

theorem toLowerAscii_byte : toLowerAscii "_byte_" = "_byte_" := by decide

theorem toLowerAscii_read : toLowerAscii "read" = "read" := by decide

theorem toLowerAscii_write : toLowerAscii "write" = "write" := by decide

theorem toLowerAscii_access : toLowerAscii "_access" = "_access" := by decide

theorem toLowerAscii_no_flags :
    toLowerAscii "_no_flags" = "_no_flags" := by decide

theorem toLowerAscii_check_pe :
    toLowerAscii "asan_check_" = "asan_check_" := by decide

theorem toLowerAscii_check_coff :
    toLowerAscii "_asan_check_" = "_asan_check_" := by decide

theorem toLowerAscii_check_repz_pe :
    toLowerAscii "asan_check_repz_" = "asan_check_repz_" := by decide

theorem toLowerAscii_check_repz_coff :
    toLowerAscii "_asan_check_repz_" = "_asan_check_repz_" := by decide

theorem toLowerAscii_check_repnz_pe :
    toLowerAscii "asan_check_repnz_" = "asan_check_repnz_" := by decide

theorem toLowerAscii_check_repnz_coff :
    toLowerAscii "_asan_check_repnz_" = "_asan_check_repnz_" := by decide

theorem isSpecialInstruction_eq_true_iff (o : Nat) :
    isSpecialInstruction o = true ↔ o ∈ [I_CMPS, I_LODS, I_MOVS, I_STOS] := by
  unfold isSpecialInstruction
  split_ifs <;> simp_all

theorem shouldInstrumentOpcode_eq_true_iff (o : Nat) :
    shouldInstrumentOpcode o = true ↔
      o ∉ [I_LEA, I_CLFLUSH, I_PREFETCH, I_PREFETCHNTA, I_PREFETCHT0,
        I_PREFETCHT1, I_PREFETCHT2, I_PREFETCHW] := by
  unfold shouldInstrumentOpcode
  split_ifs <;> simp_all

theorem isSpecial_eq_true_iff (m : MemoryAccessMode) :
    m.isSpecial = true ↔
      (m = .instrAccess ∨ m = .repz ∨ m = .repnz) := by
  cases m <;> simp [MemoryAccessMode.isSpecial]

/-! ## Claim theorems -/

/-- C1: for every probe call emitted by `InjectAsanHook` with mode
Read or Write, the two instructions inserted immediately before the
call are `push EDX` followed by `lea EDX, <operand>` with the
classified memory operand of the access; for every probe call with
mode Instr, RepZ or RepNZ, no push or lea is inserted: the emitted
sequence is the bare call. -/
theorem claim_C1_inject_hook_sequence (info : MemoryAccessInfo)
    (op : AsmOperand) (hook : Reference) (imageFormat : ImageFormat) :
    ((info.mode = .read ∨ info.mode = .write) →
      injectAsanHook info op hook imageFormat =
        [.push .edx, .lea .edx op, hookCall hook imageFormat]) ∧
    ((info.mode = .instrAccess ∨ info.mode = .repz ∨ info.mode = .repnz) →
      injectAsanHook info op hook imageFormat =
        [hookCall hook imageFormat]) := by
  constructor
  · intro h
    simp [injectAsanHook, h]
  · intro h
    have hne : ¬(info.mode = .read ∨ info.mode = .write) := by
      rcases h with h | h | h <;> simp [h]
    simp [injectAsanHook, hne]

/-- Witness for C1: a concrete 4-byte read access emits push/lea/call,
and a concrete MOVS access emits the bare call. -/
theorem claim_C1_witness :
    injectAsanHook ⟨.read, 4, 0, true⟩ ⟨some .ebx, none, .times1, .value 7⟩
        ⟨5, 0⟩ .pe =
      [.push .edx, .lea .edx ⟨some .ebx, none, .times1, .value 7⟩,
        hookCall ⟨5, 0⟩ .pe] ∧
    injectAsanHook ⟨.instrAccess, 4, I_MOVS, true⟩
        ⟨some .edi, none, .times1, .value 3⟩ ⟨5, 0⟩ .pe =
      [hookCall ⟨5, 0⟩ .pe] :=
  ⟨(claim_C1_inject_hook_sequence _ _ _ _).1 (Or.inl rfl),
    (claim_C1_inject_hook_sequence _ _ _ _).2 (Or.inl rfl)⟩

/-- C8: the instrumentation rate is clamped to [0, 1] by
`set_instrumentation_rate` (and left unchanged when already in range),
and a stored rate of exactly 0 makes `InstrumentBasicBlock` succeed
immediately for any block, emitting nothing and running no analyses
and no instruction walk. -/
theorem claim_C8_rate_clamp_and_short_circuit :
    (∀ rate : ℚ,
      0 ≤ setInstrumentationRate rate ∧ setInstrumentationRate rate ≤ 1 ∧
        (0 ≤ rate → rate ≤ 1 → setInstrumentationRate rate = rate)) ∧
    (∀ (cfg : Config) (stackMode : StackAccessMode)
        (imageFormat : ImageFormat)
        (hooks : MemoryAccessInfo → Option Reference)
        (instrs : List InstrContext),
      cfg.instrumentationRate = 0 →
      instrumentBasicBlock cfg stackMode imageFormat hooks instrs =
        ⟨true, [], false⟩) := by
  constructor
  · intro rate
    refine ⟨le_max_left _ _, max_le (by norm_num) (min_le_left _ _), ?_⟩
    intro h0 h1
    rw [setInstrumentationRate, min_eq_right h1, max_eq_right h0]
  · intro cfg stackMode imageFormat hooks instrs h
    simp [instrumentBasicBlock, h]

/-- Witness for C8: the rate 1/2 is in range and kept as is, and a
transform with rate 0 short-circuits a concrete nonempty block. -/
theorem claim_C8_witness :
    setInstrumentationRate (1 / 2) = 1 / 2 ∧
    instrumentBasicBlock ⟨false, false, false, false, 0⟩ .unsafeStack .pe
        (fun _ => none)
        [⟨⟨⟨1, ⟨.O_REG, 32, .eax⟩, ⟨.O_SMEM, 32, .ebx⟩, 4, 1, 0, none, none,
            false, false, true, false⟩, none, none⟩, false, true, false, 0⟩] =
      ⟨true, [], false⟩ :=
  ⟨(claim_C8_rate_clamp_and_short_circuit.1 (1 / 2)).2.2 (by norm_num)
      (by norm_num),
    claim_C8_rate_clamp_and_short_circuit.2 _ _ _ _ _ rfl⟩

/-- C9: when the block graph already contains a section named
`.thunks`, `PreBlockGraphIteration` fails with the AlreadyInstrumented
error, whatever the remaining (mutating) pre-pass steps would have
done — they are never reached, so an image is never instrumented
twice. -/
theorem claim_C9_refuse_reinstrumentation (bg : BlockGraphModel)
    (rest : Except AsanPassError Unit)
    (h : kThunkSectionName ∈ bg.sections) :
    preBlockGraphIteration bg rest = .error .alreadyInstrumented := by
  simp [preBlockGraphIteration, h]

/-- Witness for C9: a concrete graph carrying a `.thunks` section is
refused even though the remaining steps would succeed. -/
theorem claim_C9_witness :
    preBlockGraphIteration ⟨[".text", ".thunks"]⟩ (.ok ()) =
      .error .alreadyInstrumented :=
  claim_C9_refuse_reinstrumentation _ _ (by simp [kThunkSectionName])

/-- C6: the probe variants enumerated for import by
`ImportAsanCheckAccessHooks` are exactly (as a multiset, so "one ...
one ..." counts included) the spec's enumeration: a read and a write
entry with `save_flags = true` for each size in {1,2,4,8,16,32} and
for size 10, plus a `save_flags = false` copy of each when liveness
analysis is enabled, plus one repz and one instr variant with
`save_flags = true` for each size in {1,2,4} and each string opcode. -/
theorem claim_C6_probe_enumeration (useLivenessAnalysis : Bool) :
    (accessHookParamVec useLivenessAnalysis).Perm
      (specHookList useLivenessAnalysis) := by
  cases useLivenessAnalysis <;> decide

/-- C5: for every `MemoryAccessInfo` whose mode is not None and every
image format, the generated probe name is exactly the lower-case
string `[prefix]"asan_check"[rep]"_"<size>"_byte_"<op>"_access"[nf]`
of the spec's mangling rule. -/
theorem claim_C5_probe_name (info : MemoryAccessInfo)
    (imageFormat : ImageFormat) (h : info.mode ≠ .noAccess) :
    getAsanCheckAccessFunctionName info imageFormat =
      specProbeName info imageFormat := by
  obtain ⟨mode, size, opcode, saveFlags⟩ := info
  cases mode <;> cases imageFormat <;> cases saveFlags <;>
    simp_all [getAsanCheckAccessFunctionName, specProbeName,
      toLowerAscii_append, toLowerAscii_natDecimal, toLowerAscii_empty,
      toLowerAscii_underscore, toLowerAscii_asan_check, toLowerAscii_repz,
      toLowerAscii_repnz, toLowerAscii_byte, toLowerAscii_read,
      toLowerAscii_write, toLowerAscii_access, toLowerAscii_no_flags,
      toLowerAscii_check_pe, toLowerAscii_check_coff,
      toLowerAscii_check_repz_pe, toLowerAscii_check_repz_coff,
      toLowerAscii_check_repnz_pe, toLowerAscii_check_repnz_coff]

/-- Witness for C5: the COFF, flag-less 4-byte read probe name at a
concrete input, also spelled out as a literal. -/
theorem claim_C5_witness :
    getAsanCheckAccessFunctionName ⟨.read, 4, 0, false⟩ .coff =
      specProbeName ⟨.read, 4, 0, false⟩ .coff ∧
    specProbeName ⟨.read, 4, 0, false⟩ .coff =
      "_asan_check_4_byte_read_access_no_flags" :=
  ⟨claim_C5_probe_name ⟨.read, 4, 0, false⟩ .coff (by decide), by decide⟩

/-- A concrete instruction whose memory operand carries a basic-block
reference: a 4-byte `O_SMEM` access through EBX with a 4-byte
displacement field referring to basic block 1 at offset 0. -/
def basicBlockRefInstr : Instruction :=
  { repr :=
      { opcode := 1, ops0 := ⟨.O_SMEM, 32, .ebx⟩, ops1 := ⟨.O_NONE, 0, .eax⟩,
        disp := 0, dispSize := 4, scale := 0, base := none, segment := none,
        prefixRep := false, prefixRepnz := false, dstWr := false,
        isNop := false },
    operandRef0 := some ⟨.basicBlock, 1, 0⟩, operandRef1 := none }

/-- Counterexample to C2 as stated: it is not true that, whenever the
displacement field of a classified memory operand carries a reference
— whether to a block or to a basic block — the last-byte adjustment
`size − 1` is added to the reference's offset.  For the concrete
4-byte access `basicBlockRefInstr`, whose displacement refers to basic
block 1 at offset 0, the adjusted offset would be `0 + 4 − 1 = 3`, but
the code materializes the bare basic-block reference, whose offset is
0. -/
theorem claim_C2_counterexample :
    ¬(∀ (instr : Instruction) (operand : Nat) (ref : BBReference),
      ((instr.repr.op operand).type = .O_SMEM ∨
        (instr.repr.op operand).type = .O_MEM) →
      instr.repr.dispSize ≠ 0 →
      instr.operandRef operand = some ref →
      (computeDisplacementForOperand instr operand).referredType =
          some ref.referredType ∧
        (computeDisplacementForOperand instr operand).refTarget =
          some ref.target ∧
        (computeDisplacementForOperand instr operand).refOffset =
          ref.offset + ((instr.repr.op operand).size / 8 : Nat) - 1) := by
  intro h
  have := h basicBlockRefInstr 0 ⟨.basicBlock, 1, 0⟩ (Or.inl rfl)
    (by decide) rfl
  exact absurd this.2.2 (by decide)

/-- C2 (amended): the displacement computed for the probe's `lea`
points at the last byte touched — the instruction's (effective)
displacement plus `size − 1` — whenever the displacement field carries
no reference; when it carries a *block* reference, the adjustment is
added to the reference's offset and the reference is preserved; but
when it carries a *basic-block* reference, the reference is preserved
while the offset and the adjustment are dropped: the result is the
bare basic-block reference, at offset 0. -/
theorem claim_C2_last_byte_displacement (instr : Instruction)
    (operand : Nat)
    (hty : (instr.repr.op operand).type = .O_SMEM ∨
      (instr.repr.op operand).type = .O_MEM) :
    ((instr.repr.dispSize = 0 →
        computeDisplacementForOperand instr operand =
          .value (((instr.repr.op operand).size / 8 : Nat) - 1)) ∧
      (instr.repr.dispSize ≠ 0 → instr.operandRef operand = none →
        computeDisplacementForOperand instr operand =
          .value (instr.repr.disp +
            ((instr.repr.op operand).size / 8 : Nat) - 1))) ∧
    (∀ ref, instr.repr.dispSize ≠ 0 →
      instr.operandRef operand = some ref →
      (computeDisplacementForOperand instr operand).referredType =
          some ref.referredType ∧
        (computeDisplacementForOperand instr operand).refTarget =
          some ref.target ∧
        (computeDisplacementForOperand instr operand).refOffset =
          (if ref.referredType = .block then
            ref.offset + ((instr.repr.op operand).size / 8 : Nat) - 1
          else 0)) := by
  clear hty
  refine ⟨⟨?_, ?_⟩, ?_⟩
  · intro h0
    simp [computeDisplacementForOperand, h0]
  · intro h0 href
    simp [computeDisplacementForOperand, h0, href]
  · intro ref h0 href
    cases hrt : ref.referredType <;>
      simp [computeDisplacementForOperand, h0, href, hrt,
        Displacement.referredType, Displacement.refTarget,
        Displacement.refOffset]

/-- Witness for C2 (amended): at the concrete input
`basicBlockRefInstr`, the computed displacement preserves the
basic-block reference with offset 0 and no adjustment. -/
theorem claim_C2_witness :
    (computeDisplacementForOperand basicBlockRefInstr 0).referredType =
        some .basicBlock ∧
      (computeDisplacementForOperand basicBlockRefInstr 0).refTarget =
        some 1 ∧
      (computeDisplacementForOperand basicBlockRefInstr 0).refOffset = 0 :=
  (claim_C2_last_byte_displacement basicBlockRefInstr 0
    (Or.inl rfl)).2 ⟨.basicBlock, 1, 0⟩ (by decide) rfl

/-- C3: for every instruction with a chosen memory operand, the access
mode is determined, in order, by: REPNZ prefix → RepNZ; REP/REPZ
prefix → RepZ; opcode in {CMPS, LODS, MOVS, STOS} → Instr;
destination-write flag set and chosen operand = operand 0 → Write;
otherwise Read.  The opcode field of the resulting `MemoryAccessInfo`
is populated (with the instruction's opcode) exactly when the mode is
Instr, RepZ or RepNZ, and is 0 otherwise. -/
theorem claim_C3_access_mode_rules (instr : Instruction)
    (op : AsmOperand) (info : MemoryAccessInfo)
    (h : decodeMemoryAccess instr = some (op, info)) :
    info.mode =
      (if instr.repr.prefixRepnz then .repnz
        else if instr.repr.prefixRep then .repz
        else if instr.repr.opcode ∈ [I_CMPS, I_LODS, I_MOVS, I_STOS] then
          .instrAccess
        else if instr.repr.dstWr ∧ chooseMemOp instr.repr = some 0 then
          .write
        else .read) ∧
    info.opcode =
      (if info.mode = .instrAccess ∨ info.mode = .repz ∨
          info.mode = .repnz then
        instr.repr.opcode
      else 0) := by
  simp only [decodeMemoryAccess] at h
  split at h
  · cases h
  · split at h
    · cases h
    · next memOpId hc =>
      split at h
      · next access hform =>
        simp only [Option.some.injEq, Prod.mk.injEq] at h
        obtain ⟨-, rfl⟩ := h
        constructor
        · show decodeMode instr.repr memOpId = _
          unfold decodeMode
          by_cases h1 : instr.repr.prefixRepnz <;>
          by_cases h2 : instr.repr.prefixRep <;>
          by_cases h3 : isSpecialInstruction instr.repr.opcode <;>
          by_cases h4 : instr.repr.dstWr <;>
          by_cases h5 : memOpId = 0 <;>
            simp_all [isSpecialInstruction_eq_true_iff]
        · show (if (decodeMode instr.repr memOpId).isSpecial then _ else _) = _
          cases decodeMode instr.repr memOpId <;>
            simp [MemoryAccessMode.isSpecial]
      · cases h

/-- A concrete `REP MOVS [EDI], [ESI]` (dword) instruction. -/
def repMovsInstr : Instruction :=
  { repr :=
      { opcode := I_MOVS, ops0 := ⟨.O_SMEM, 32, .edi⟩,
        ops1 := ⟨.O_SMEM, 32, .esi⟩, disp := 0, dispSize := 0, scale := 0,
        base := none, segment := none, prefixRep := true,
        prefixRepnz := false, dstWr := true, isNop := false },
    operandRef0 := none, operandRef1 := none }

/-- Witness for C3: `REP MOVS` decodes to mode RepZ with the MOVS
opcode populated. -/
theorem claim_C3_witness :
    decodeMemoryAccess repMovsInstr =
      some (⟨some .edi, none, .times1, .value 3⟩,
        ⟨.repz, 4, I_MOVS, true⟩) ∧
    (⟨.repz, 4, I_MOVS, true⟩ : MemoryAccessInfo).mode = .repz ∧
    (⟨.repz, 4, I_MOVS, true⟩ : MemoryAccessInfo).opcode = I_MOVS :=
  ⟨by decide,
    (claim_C3_access_mode_rules repMovsInstr
        ⟨some .edi, none, .times1, .value 3⟩ ⟨.repz, 4, I_MOVS, true⟩
        (by decide)).1.trans (by decide),
    (claim_C3_access_mode_rules repMovsInstr
        ⟨some .edi, none, .times1, .value 3⟩ ⟨.repz, 4, I_MOVS, true⟩
        (by decide)).2.trans (by decide)⟩

/-- C4: no access through segment FS or GS, no LEA, no
CLFLUSH/PREFETCH variant, and, under SafeStack, no access whose base
register is ESP or EBP, is ever instrumented: whenever the
per-instruction step of `InstrumentBasicBlock` decides to instrument,
none of these exemptions applies to the instruction and its classified
operand. -/
theorem claim_C4_never_instrumented (cfg : Config)
    (stackMode : StackAccessMode) (ctx : InstrContext)
    (info : MemoryAccessInfo) (op : AsmOperand)
    (h : instrumentDecision cfg stackMode ctx = .instrument info op) :
    ctx.instr.repr.segment ≠ some .fs ∧
    ctx.instr.repr.segment ≠ some .gs ∧
    ctx.instr.repr.opcode ∉
      [I_LEA, I_CLFLUSH, I_PREFETCH, I_PREFETCHNTA, I_PREFETCHT0,
        I_PREFETCHT1, I_PREFETCHT2, I_PREFETCHW] ∧
    (stackMode = .safeStack →
      op.base ≠ some .esp ∧ op.base ≠ some .ebp) := by
  simp only [instrumentDecision] at h
  split at h
  · exact Decision.noConfusion h
  split at h
  · exact Decision.noConfusion h
  next operand info0 hdec =>
  split at h
  · exact Decision.noConfusion h
  split at h
  · exact Decision.noConfusion h
  split at h
  · exact Decision.noConfusion h
  split at h
  · exact Decision.noConfusion h
  next hopc =>
  split at h
  · exact Decision.noConfusion h
  next hstack =>
  split at h
  · exact Decision.noConfusion h
  next hseg =>
  split at h
  · exact Decision.noConfusion h
  split at h
  · exact Decision.noConfusion h
  injection h with hinfo hop
  subst hop
  refine ⟨fun hfs => hseg (Or.inl hfs), fun hgs => hseg (Or.inr hgs),
    (shouldInstrumentOpcode_eq_true_iff _).mp (not_not.mp hopc),
    fun hsafe =>
      ⟨fun hesp => hstack ⟨hsafe, Or.inl hesp⟩,
        fun hebp => hstack ⟨hsafe, Or.inr hebp⟩⟩⟩

/-- A transform configuration with every optional analysis off and
full instrumentation rate. -/
def plainCfg : Config := ⟨false, false, false, false, 1⟩

/-- A concrete `MOV EAX, [EBX+4]` instruction (4-byte read through
EBX). -/
def readInstr : Instruction :=
  { repr :=
      { opcode := 2, ops0 := ⟨.O_REG, 32, .eax⟩, ops1 := ⟨.O_SMEM, 32, .ebx⟩,
        disp := 4, dispSize := 1, scale := 0, base := none, segment := none,
        prefixRep := false, prefixRepnz := false, dstWr := true,
        isNop := false },
    operandRef0 := none, operandRef1 := none }

/-- Witness for C4: the concrete read access `readInstr` is
instrumented, and indeed carries none of the exemptions. -/
theorem claim_C4_witness :
    instrumentDecision plainCfg .unsafeStack ⟨readInstr, false, true, false, 0⟩ =
      .instrument ⟨.read, 4, 0, true⟩ ⟨some .ebx, none, .times1, .value 7⟩ ∧
    readInstr.repr.segment ≠ some .fs ∧
    readInstr.repr.opcode ∉
      [I_LEA, I_CLFLUSH, I_PREFETCH, I_PREFETCHNTA, I_PREFETCHT0,
        I_PREFETCHT1, I_PREFETCHT2, I_PREFETCHW] :=
  ⟨by decide,
    (claim_C4_never_instrumented plainCfg .unsafeStack
        ⟨readInstr, false, true, false, 0⟩ ⟨.read, 4, 0, true⟩
        ⟨some .ebx, none, .times1, .value 7⟩ (by decide)).1,
    (claim_C4_never_instrumented plainCfg .unsafeStack
        ⟨readInstr, false, true, false, 0⟩ ⟨.read, 4, 0, true⟩
        ⟨some .ebx, none, .times1, .value 7⟩ (by decide)).2.2.1⟩

/-- C10: the `MemoryAccessInfo` produced by the operand classifier
always has `save_flags = true` (the field is initialized to true for
every instruction and the classifier never touches it), and for every
instrumented access whose mode is Instr, RepZ or RepNZ the selected
probe variant still has `save_flags = true`: the liveness-driven
downgrade to a `_no_flags` probe applies only to Read and Write
accesses. -/
theorem claim_C10_special_always_save_flags :
    (∀ (instr : Instruction) (op : AsmOperand) (info : MemoryAccessInfo),
      decodeMemoryAccess instr = some (op, info) →
      info.saveFlags = true) ∧
    (∀ (cfg : Config) (stackMode : StackAccessMode) (ctx : InstrContext)
        (info : MemoryAccessInfo) (op : AsmOperand),
      instrumentDecision cfg stackMode ctx = .instrument info op →
      (info.mode = .instrAccess ∨ info.mode = .repz ∨
        info.mode = .repnz) →
      info.saveFlags = true) := by
  have hdecSf : ∀ (instr : Instruction) (op : AsmOperand)
      (info : MemoryAccessInfo),
      decodeMemoryAccess instr = some (op, info) →
      info.saveFlags = true := by
    intro instr op info h
    simp only [decodeMemoryAccess] at h
    split at h
    · exact Option.noConfusion h
    split at h
    · exact Option.noConfusion h
    split at h
    · simp only [Option.some.injEq, Prod.mk.injEq] at h
      obtain ⟨-, rfl⟩ := h
      rfl
    · exact Option.noConfusion h
  refine ⟨hdecSf, ?_⟩
  intro cfg stackMode ctx info op h hspecial
  simp only [instrumentDecision] at h
  split at h
  · exact Decision.noConfusion h
  split at h
  · exact Decision.noConfusion h
  next operand info0 hdec =>
  split at h
  · exact Decision.noConfusion h
  split at h
  · exact Decision.noConfusion h
  split at h
  · exact Decision.noConfusion h
  split at h
  · exact Decision.noConfusion h
  split at h
  · exact Decision.noConfusion h
  split at h
  · exact Decision.noConfusion h
  split at h
  · exact Decision.noConfusion h
  split at h
  · exact Decision.noConfusion h
  injection h with hinfo hop
  by_cases hov : cfg.useLivenessAnalysis = true ∧
      (info0.mode = .read ∨ info0.mode = .write)
  · rw [if_pos hov] at hinfo
    subst hinfo
    rcases hov.2 with hr | hw <;>
      rcases hspecial with hs | hs | hs <;> simp_all
  · rw [if_neg hov] at hinfo
    subst hinfo
    exact hdecSf _ _ _ hdec

/-- Witness for C10: the concrete `REP MOVS` access is instrumented in
mode RepZ with `save_flags = true`. -/
theorem claim_C10_witness :
    instrumentDecision plainCfg .unsafeStack
        ⟨repMovsInstr, false, true, false, 0⟩ =
      .instrument ⟨.repz, 4, I_MOVS, true⟩
        ⟨some .edi, none, .times1, .value 3⟩ ∧
    (⟨.repz, 4, I_MOVS, true⟩ : MemoryAccessInfo).saveFlags = true :=
  ⟨by decide,
    claim_C10_special_always_save_flags.2 plainCfg .unsafeStack
      ⟨repMovsInstr, false, true, false, 0⟩ ⟨.repz, 4, I_MOVS, true⟩
      ⟨some .edi, none, .times1, .value 3⟩ (by decide)
      (Or.inr (Or.inl rfl))⟩

/-- Counterexample to C7 as stated: per-block errors are *not* fatal
in every mode.  In hot-patching mode, on a concrete block where
instrumentation would happen (second conjunct: the preparation step
runs, `prepared_for_hot_patching` is set), the hot-patch preparation
transform returns an error (`hpPrepResult = false`), yet `OnBlock`
still reports success — `HotPatchingAsanBasicBlockTransform::`
`TransformBasicBlockSubGraph` discards the delegated results and
always returns true, so the pass does not abort. -/
theorem claim_C7_counterexample :
    ¬(onBlock true false plainCfg .unsafeStack .pe (fun _ => none)
        [[⟨readInstr, false, true, false, 0⟩]] true true false = false) ∧
    (hotPatchingTransformBasicBlockSubGraph plainCfg .unsafeStack .pe
        (fun _ => none) [[⟨readInstr, false, true, false, 0⟩]]
        false).2 = true := by
  constructor
  · decide
  · decide

/-- C7 (amended): per-block errors are fatal to the pass in the normal
(non-hot-patching) mode — a failing basic-block transform, a failing
decomposition or a failing rebuild each makes `OnBlock` fail, aborting
the pass.  In hot-patching mode, however, the per-block wrapper always
reports success, ignoring the result of the dry-run Asan transform
(which cannot fail) and of the hot-patch preparation transform; only
decomposition/rebuild failures abort there. -/
theorem claim_C7_per_block_errors (cfg : Config)
    (stackMode : StackAccessMode) (imageFormat : ImageFormat)
    (hooks : MemoryAccessInfo → Option Reference)
    (basicBlocks : List (List InstrContext))
    (decomposeOk rebuildOk hpPrepResult : Bool) :
    (transformBasicBlockSubGraph cfg stackMode imageFormat hooks
        basicBlocks = false →
      onBlock false false cfg stackMode imageFormat hooks basicBlocks
        decomposeOk rebuildOk hpPrepResult = false) ∧
    (decomposeOk = false →
      onBlock false false cfg stackMode imageFormat hooks basicBlocks
          decomposeOk rebuildOk hpPrepResult = false ∧
        onBlock true false cfg stackMode imageFormat hooks basicBlocks
          decomposeOk rebuildOk hpPrepResult = false) ∧
    (rebuildOk = false →
      onBlock false false cfg stackMode imageFormat hooks basicBlocks
          decomposeOk rebuildOk hpPrepResult = false ∧
        onBlock true false cfg stackMode imageFormat hooks basicBlocks
          decomposeOk rebuildOk hpPrepResult = false) ∧
    (hotPatchingTransformBasicBlockSubGraph cfg stackMode imageFormat
        hooks basicBlocks hpPrepResult).1 = true ∧
    onBlock true false cfg stackMode imageFormat hooks basicBlocks
        decomposeOk rebuildOk hpPrepResult = (decomposeOk && rebuildOk) ∧
    (cfg.dryRun = true →
      transformBasicBlockSubGraph cfg stackMode imageFormat hooks
        basicBlocks = true) := by
  refine ⟨?_, ?_, ?_, rfl, ?_, ?_⟩
  · intro hf
    simp [onBlock, applyBasicBlockSubGraphTransform, hf]
  · intro hd
    constructor <;>
      simp [onBlock, applyBasicBlockSubGraphTransform, hd]
  · intro hr
    constructor <;>
      simp [onBlock, applyBasicBlockSubGraphTransform, hr]
  · simp [onBlock, applyBasicBlockSubGraphTransform,
      hotPatchingTransformBasicBlockSubGraph]
  · intro hdry
    simp only [transformBasicBlockSubGraph, List.all_eq_true]
    intro bb hbb
    unfold instrumentBasicBlock
    split
    · rfl
    · exact instrumentWalk_dryRun_success _ _ _ _ _ hdry

/-- Witness for C7 (amended): in normal mode, a concrete block whose
probe lookup fails (empty hook table) makes `OnBlock` fail. -/
theorem claim_C7_witness :
    onBlock false false plainCfg .unsafeStack .pe (fun _ => none)
      [[⟨readInstr, false, true, false, 0⟩]] true true true = false :=
  (claim_C7_per_block_errors plainCfg .unsafeStack .pe (fun _ => none)
      [[⟨readInstr, false, true, false, 0⟩]] true true true).1 (by decide)

end SyzyAsan
